import Mathlib

/-!
Shallow embedding of the smartstat-frontend HTTP client layer.

The repository consists of an axios-based API client (request/response
interceptors with automatic token refresh on 401, plus thin endpoint
wrappers) and the VendorsPage admin component.  Browser state that the
code reads and writes (localStorage, the axios default headers,
window.location) is modelled explicitly; network calls appear as
oracle functions or as the concrete request the code would issue.
-/

namespace SmartStat

/-- JavaScript truthiness of a nullable string (`localStorage.getItem`
returns `string | null`; `if (s)` is false for `null` and `""`). -/
def jsTruthy : Option String → Bool
  | none => false
  | some s => !(s == "")

/-- JavaScript `a || b` on a nullable string: falls back to `b` when `a`
is `null` or the empty string. -/
def jsOr (a : Option String) (b : String) : String :=
  match a with
  | none => b
  | some s => if s == "" then b else s

/-- Base URL of the `api` axios instance:
`process.env.REACT_APP_API_URL || http-localhost-8001-api`. -/
def apiBaseURL (env : Option String) : String :=
  jsOr env "http://localhost:8001/api"

/-- Base URL used by the token-refresh POST inside the response
interceptor: `process.env.REACT_APP_API_URL || http-localhost-8000-api`. -/
def refreshBaseURL (env : Option String) : String :=
  jsOr env "http://localhost:8000/api"

/-- Full URL the refresh request is posted to. -/
def refreshEndpoint (env : Option String) : String :=
  refreshBaseURL env ++ "/token/refresh/"

/-- The browser-side mutable state the client code touches: the two
localStorage keys, the axios default Authorization header, and
`window.location.href` (only ever assigned, so modelled as the last
assigned value). -/
structure ClientState where
  token : Option String
  refreshToken : Option String
  defaultAuth : Option String
  locationHref : Option String
  deriving DecidableEq, Repr

/-- The slice of an axios request config the interceptors read or write:
the Authorization header and the `_retry` marker (absent = `false`). -/
structure RequestConfig where
  url : String
  authorization : Option String
  retryFlag : Bool
  deriving DecidableEq, Repr

/-- An axios error as seen by the response interceptor: the originating
request config and `error.response?.status` (`none` when the error had
no HTTP response). -/
structure AxiosError where
  config : RequestConfig
  status : Option Nat
  deriving DecidableEq, Repr

/-- The request interceptor: reads the stored token and, when it is
truthy, sets `config.headers.Authorization` to the bearer token;
otherwise the config passes through untouched. -/
def requestInterceptor (st : ClientState) (config : RequestConfig) : RequestConfig :=
  match st.token with
  | some t => if t == "" then config else { config with authorization := some ("Bearer " ++ t) }
  | none => config

/-- What the error branch of the response interceptor can reject with. -/
inductive RefreshErr where
  /-- the locally thrown `Error` when no refresh token is available -/
  | noRefreshToken
  /-- the rejection of the refresh POST itself -/
  | postFailed (msg : String)
  deriving DecidableEq, Repr

/-- How the error branch of the response interceptor resolves. -/
inductive Outcome where
  /-- re-issues the original request through `api` and returns its result -/
  | retried (cfg : RequestConfig)
  /-- `Promise.reject(error)` with the original error -/
  | rejectedOriginal (e : AxiosError)
  /-- `Promise.reject(refreshError)` after a failed refresh -/
  | rejectedRefresh (e : RefreshErr)
  deriving DecidableEq, Repr

/-- Result of one run of the error branch of the response interceptor:
the browser state afterwards, how the promise resolves, and the list of
token-refresh POSTs performed (url paired with the `refresh` field). -/
structure InterceptResult where
  state : ClientState
  outcome : Outcome
  posts : List (String × String)
  deriving DecidableEq, Repr

/-- The shared failure tail of the refresh `catch` block: clear both
stored tokens, delete the default Authorization header, redirect the
browser to `/login` and reject with the refresh error. -/
def refreshFailure (st : ClientState) (e : RefreshErr)
    (posts : List (String × String)) : InterceptResult :=
  { state := { st with token := none, refreshToken := none,
                       defaultAuth := none, locationHref := some "/login" },
    outcome := Outcome.rejectedRefresh e,
    posts := posts }

/-- The error branch of `api.interceptors.response.use`.  `post` is the
oracle for `axios.post(refreshEndpoint, realPayload)`: given the URL and
the refresh token it either returns the `access` field of the response
data or the rejection message. -/
def responseErrorInterceptor (env : Option String)
    (post : String → String → Except String String)
    (st : ClientState) (err : AxiosError) : InterceptResult :=
  let originalRequest := err.config
  if err.status = some 401 ∧ originalRequest.retryFlag = false then
    let originalRequest := { originalRequest with retryFlag := true }
    match st.refreshToken with
    | none => refreshFailure st RefreshErr.noRefreshToken []
    | some rt =>
      if rt == "" then refreshFailure st RefreshErr.noRefreshToken []
      else
        match post (refreshEndpoint env) rt with
        | Except.ok access =>
          { state := { st with token := some access,
                               defaultAuth := some ("Bearer " ++ access) },
            outcome := Outcome.retried
              { originalRequest with authorization := some ("Bearer " ++ access) },
            posts := [(refreshEndpoint env, rt)] }
        | Except.error msg =>
          refreshFailure st (RefreshErr.postFailed msg) [(refreshEndpoint env, rt)]
  else
    { state := st, outcome := Outcome.rejectedOriginal err, posts := [] }

/-! ### Thin endpoint wrappers

Each wrapper is modelled as the HTTP request it issues (method, url,
body), or the thrown error when it throws before issuing any request.
The wrappers return `response.data`, which is backend-owned; the request
fully determines the wrapper's own behaviour. -/

/-- HTTP method of an axios call. -/
inductive Method where
  | get
  | post
  | put
  | delete
  deriving DecidableEq, Repr

/-- One HTTP call made by a wrapper: method, url relative to the api
base, and the request body (when any), typed by the wrapper's payload. -/
structure Call (β : Type) where
  method : Method
  url : String
  body : Option β
  deriving DecidableEq, Repr

/-- Body posted by `login`: the email argument is sent under the
`username` field, as the backend's JWT endpoint expects. -/
structure LoginBody where
  username : String
  password : String
  deriving DecidableEq, Repr

/-- `login(email, password)`: posts `(username = email, password)` to
`/token/`. -/
def login (email password : String) : Call LoginBody :=
  { method := Method.post, url := "/token/",
    body := some { username := email, password := password } }

/-- `getThermostat(id)`. -/
def getThermostat (id : String) : Call Unit :=
  { method := Method.get, url := "/thermostats/" ++ id ++ "/", body := none }

/-- `deleteProperty(id)`. -/
def deleteProperty (id : String) : Call Unit :=
  { method := Method.delete, url := "/properties/" ++ id ++ "/", body := none }

/-- `getStatistics(timeRange)`: the `timeRange` argument is sent as the
`period` query parameter. -/
def getStatistics (timeRange : String) : Call Unit :=
  { method := Method.get, url := "/statistics/?period=" ++ timeRange, body := none }

/-- The calendar-event payload as `addCalendarEvent` sees it: the
`property` field it inspects (`none` = absent) and the remaining fields,
opaque to the wrapper. -/
structure EventData where
  property : Option String
  rest : List (String × String)
  deriving DecidableEq, Repr

/-- `addCalendarEvent(eventData)`: throws when `eventData.property` is
falsy, otherwise posts the event data unchanged to the property's nested
calendar route. -/
def addCalendarEvent (eventData : EventData) : Except String (Call EventData) :=
  if jsTruthy eventData.property then
    Except.ok { method := Method.post,
                url := "/properties/" ++ jsOr eventData.property "" ++ "/calendar/",
                body := some eventData }
  else
    Except.error "eventData.property is required"

/-! ### VendorsPage

The component's state hooks and its `fetchAccounts` / create handlers.
The vendor API client it calls (`api.vendors.*`, from `lib/api`) is not
part of this repository, so its results enter as `Except` arguments. -/

/-- A thrown JavaScript error as the catch blocks see it:
`err.message` may be absent or empty. -/
structure JsError where
  message : Option String
  deriving DecidableEq, Repr

/-- `err.message || fallback`. -/
def errMessageOr (err : JsError) (fallback : String) : String :=
  jsOr err.message fallback

/-- The VendorsPage state hooks that the fetch / create flows touch
(`Account` is the backend-owned account payload, opaque to the page). -/
structure VendorsState (Account : Type) where
  cieloAccounts : List Account
  nestAccounts : List Account
  nethomeAccounts : List Account
  error : Option String
  loading : Bool
  deriving DecidableEq, Repr

/-- `fetchAccounts` in the mount effect: sets loading, clears the error,
awaits the three `listAccounts` calls together (`res` is the settled
`Promise.all`), stores the lists on success, and on failure catches the
error and stores `err.message || fallback` as the inline error; loading
is cleared in `finally` either way. -/
def fetchAccounts {Account : Type} (st : VendorsState Account)
    (res : Except JsError (List Account × List Account × List Account)) :
    VendorsState Account :=
  match res with
  | Except.ok (cielo, nest, nethome) =>
    { st with cieloAccounts := cielo, nestAccounts := nest,
              nethomeAccounts := nethome, error := none, loading := false }
  | Except.error e =>
    { st with error := some (errMessageOr e "Failed to load vendor accounts"),
              loading := false }

/-- The Cielo create-form inputs (React text state, initially `""`). -/
structure CieloForm where
  apiKey : String
  accountName : String
  propertyId : String
  deriving DecidableEq, Repr

/-- `handleCieloCreate`: requires a non-empty API key, then awaits
`createAccount` (`createRes`) and on success clears the form and awaits
`refreshCielo` (`refreshRes`); any rejection is caught and stored as
`err.message || fallback`.  Returns the updated page state and form. -/
def handleCieloCreate {Account : Type} (st : VendorsState Account)
    (form : CieloForm) (createRes : Except JsError Unit)
    (refreshRes : Except JsError (List Account)) :
    VendorsState Account × CieloForm :=
  if form.apiKey == "" then
    ({ st with error := some "Cielo API key is required" }, form)
  else
    match createRes with
    | Except.error e =>
      ({ st with error := some (errMessageOr e "Failed to create Cielo account") }, form)
    | Except.ok _ =>
      let cleared : CieloForm := { apiKey := "", accountName := "", propertyId := "" }
      match refreshRes with
      | Except.ok accounts =>
        ({ st with error := none, cieloAccounts := accounts }, cleared)
      | Except.error e =>
        ({ st with error := some (errMessageOr e "Failed to create Cielo account") },
         cleared)

/-! ### Helper lemmas -/

/-- Helper: when the guard `status = 401 and not yet retried` fails, the
interceptor is the identity on state and rejects with the original
error, performing no refresh POST. -/
theorem interceptor_guard_fails (env : Option String)
    (post : String → String → Except String String)
    (st : ClientState) (err : AxiosError)
    (h : ¬(err.status = some 401 ∧ err.config.retryFlag = false)) :
    responseErrorInterceptor env post st err =
      { state := st, outcome := Outcome.rejectedOriginal err, posts := [] } := by
  unfold responseErrorInterceptor
  simp [h]

/-- Helper: whatever the interceptor does, a re-issued request carries
`retryFlag = true`. -/
theorem interceptor_retried_flag (env : Option String)
    (post : String → String → Except String String)
    (st : ClientState) (err : AxiosError) (cfg : RequestConfig)
    (h : (responseErrorInterceptor env post st err).outcome = Outcome.retried cfg) :
    cfg.retryFlag = true := by
  unfold responseErrorInterceptor at h
  by_cases hc : err.status = some 401 ∧ err.config.retryFlag = false
  · simp only [hc, if_pos, and_self, if_true] at h
    rcases hrt : st.refreshToken with _ | rt <;> simp only [hrt] at h
    · simp [refreshFailure] at h
    · by_cases he : rt == ""
      · simp [he, refreshFailure] at h
      · simp only [he, Bool.false_eq_true, if_false] at h
        rcases hp : post (refreshEndpoint env) rt with m | access <;>
          simp only [hp] at h
        · simp [refreshFailure] at h
        · simp only [Outcome.retried.injEq] at h
          rw [← h]
  · simp [hc] at h

/-! ### Claim theorems -/

/-- Claim C8: with `REACT_APP_API_URL` unset, ordinary requests default
to base URL `http-localhost-8001-api` while the token-refresh POST goes
to `http-localhost-8000-api/token/refresh/` — a different default
origin. -/
theorem default_refresh_origin_differs :
    apiBaseURL none = "http://localhost:8001/api" ∧
    refreshEndpoint none = "http://localhost:8000/api/token/refresh/" ∧
    apiBaseURL none ≠ refreshBaseURL none := by
  refine ⟨rfl, rfl, ?_⟩
  decide

/-- Claim C6 (counterexample): storing the empty string under `token`
means a token is stored, yet the request interceptor attaches no
Authorization header (the `if (token)` truthiness test fails), so the
header is not attached exactly when a token is stored. -/
theorem empty_token_attaches_no_header :
    (some "" : Option String).isSome = true ∧
    requestInterceptor ⟨some "", none, none, none⟩ ⟨"/thermostats/", none, false⟩ =
      ⟨"/thermostats/", none, false⟩ := by
  exact ⟨rfl, rfl⟩

/-- Claim C6 (amended): the request interceptor sets
`Authorization: Bearer token` exactly when a non-empty token is stored;
when the stored token is absent or empty the config passes through
completely unchanged. -/
theorem requestInterceptor_bearer (st : ClientState) (cfg : RequestConfig) :
    (∀ t, st.token = some t → t ≠ "" →
      requestInterceptor st cfg = { cfg with authorization := some ("Bearer " ++ t) }) ∧
    (jsTruthy st.token = false → requestInterceptor st cfg = cfg) := by
  constructor
  · intro t ht hne
    simp [requestInterceptor, ht, hne]
  · intro h
    rcases hst : st.token with _ | t
    · simp [requestInterceptor, hst]
    · rw [hst] at h
      simp only [jsTruthy, Bool.not_eq_false', beq_iff_eq] at h
      simp [requestInterceptor, hst, h]

/-- Claim C6 (witness): concrete runs of the amended theorem at a stored
token `tok` and at an empty store. -/
theorem requestInterceptor_bearer_witness :
    requestInterceptor ⟨some "tok", none, none, none⟩ ⟨"/properties/", none, false⟩ =
      ⟨"/properties/", some ("Bearer " ++ "tok"), false⟩ ∧
    requestInterceptor ⟨none, none, none, none⟩ ⟨"/properties/", none, false⟩ =
      ⟨"/properties/", none, false⟩ :=
  ⟨(requestInterceptor_bearer ⟨some "tok", none, none, none⟩
      ⟨"/properties/", none, false⟩).1 "tok" rfl (by decide),
   (requestInterceptor_bearer ⟨none, none, none, none⟩
      ⟨"/properties/", none, false⟩).2 rfl⟩

/-- Claim C5: on any error whose status is not 401, and on a 401 whose
request is already marked retried, the interceptor rejects with the
original error and leaves the whole client state (stored tokens and
default Authorization header included) unchanged, posting no refresh. -/
theorem non401_rejects_unchanged (env : Option String)
    (post : String → String → Except String String)
    (st : ClientState) (err : AxiosError)
    (h : err.status ≠ some 401 ∨ err.config.retryFlag = true) :
    responseErrorInterceptor env post st err =
      { state := st, outcome := Outcome.rejectedOriginal err, posts := [] } := by
  apply interceptor_guard_fails
  rcases h with h | h
  · exact fun hc => h hc.1
  · exact fun hc => by rw [h] at hc; exact Bool.noConfusion hc.2

/-- Claim C5 (witness): a concrete 500 error passes through with state
untouched. -/
theorem non401_rejects_unchanged_witness :
    responseErrorInterceptor none (fun _ _ => Except.ok "x")
      ⟨some "t", some "r", some "Bearer t", none⟩ ⟨⟨"/u", none, false⟩, some 500⟩ =
      { state := ⟨some "t", some "r", some "Bearer t", none⟩,
        outcome := Outcome.rejectedOriginal ⟨⟨"/u", none, false⟩, some 500⟩,
        posts := [] } :=
  non401_rejects_unchanged none (fun _ _ => Except.ok "x")
    ⟨some "t", some "r", some "Bearer t", none⟩ ⟨⟨"/u", none, false⟩, some 500⟩
    (Or.inl (by decide))

/-- Claim C2: the refresh-and-retry cycle is bounded to once per
request — a 401 on a request already flagged `_retry` is rejected with
its error, with no refresh POST and regardless of what the refresh
endpoint would answer; and every request the interceptor re-issues
carries the `_retry` flag, so a second 401 on it falls into that case. -/
theorem retry_once (env : Option String)
    (post : String → String → Except String String)
    (st : ClientState) (err : AxiosError) :
    (err.status = some 401 → err.config.retryFlag = true →
      responseErrorInterceptor env post st err =
        { state := st, outcome := Outcome.rejectedOriginal err, posts := [] }) ∧
    (∀ cfg, (responseErrorInterceptor env post st err).outcome = Outcome.retried cfg →
      cfg.retryFlag = true) := by
  constructor
  · intro _ hflag
    apply interceptor_guard_fails
    intro hc
    rw [hflag] at hc
    exact Bool.noConfusion hc.2
  · exact fun cfg h => interceptor_retried_flag env post st err cfg h

/-- Claim C2 (witness): a concrete 401 on an already-retried request is
rejected unchanged, and the concrete re-issued request of a successful
refresh carries the flag. -/
theorem retry_once_witness :
    responseErrorInterceptor none (fun _ _ => Except.ok "acc")
      ⟨some "t", some "r", none, none⟩ ⟨⟨"/u", none, true⟩, some 401⟩ =
      { state := ⟨some "t", some "r", none, none⟩,
        outcome := Outcome.rejectedOriginal ⟨⟨"/u", none, true⟩, some 401⟩,
        posts := [] } ∧
    (⟨"/u", some ("Bearer " ++ "acc"), true⟩ : RequestConfig).retryFlag = true :=
  ⟨(retry_once none (fun _ _ => Except.ok "acc")
      ⟨some "t", some "r", none, none⟩ ⟨⟨"/u", none, true⟩, some 401⟩).1 rfl rfl,
   (retry_once none (fun _ _ => Except.ok "acc")
      ⟨some "t", some "r", none, none⟩ ⟨⟨"/u", none, false⟩, some 401⟩).2
     ⟨"/u", some ("Bearer " ++ "acc"), true⟩ rfl⟩

/-- Claim C1: a 401 on a not-yet-retried request posts the stored
refresh token to the refresh endpoint, and on success stores the
returned `access` token under `token`, sets the default and
per-request Authorization headers to the new bearer token, and
re-issues the original request (now flagged) whose result it returns. -/
theorem refresh_success_retries (env : Option String)
    (post : String → String → Except String String)
    (st : ClientState) (err : AxiosError) (rt access : String)
    (h401 : err.status = some 401) (hflag : err.config.retryFlag = false)
    (hrt : st.refreshToken = some rt) (hne : rt ≠ "")
    (hpost : post (refreshEndpoint env) rt = Except.ok access) :
    responseErrorInterceptor env post st err =
      { state := { st with token := some access,
                           defaultAuth := some ("Bearer " ++ access) },
        outcome := Outcome.retried
          { err.config with retryFlag := true,
                            authorization := some ("Bearer " ++ access) },
        posts := [(refreshEndpoint env, rt)] } := by
  unfold responseErrorInterceptor
  simp [h401, hflag, hrt, hne, hpost]

/-- Claim C1 (witness): a concrete 401 with refresh token `r` and a
refresh endpoint answering `acc` retries with the new bearer token. -/
theorem refresh_success_retries_witness :
    responseErrorInterceptor none (fun _ _ => Except.ok "acc")
      ⟨some "old", some "r", some "Bearer old", none⟩ ⟨⟨"/u", some "Bearer old", false⟩, some 401⟩ =
      { state := ⟨some "acc", some "r", some ("Bearer " ++ "acc"), none⟩,
        outcome := Outcome.retried ⟨"/u", some ("Bearer " ++ "acc"), true⟩,
        posts := [(refreshEndpoint none, "r")] } :=
  refresh_success_retries none (fun _ _ => Except.ok "acc")
    ⟨some "old", some "r", some "Bearer old", none⟩
    ⟨⟨"/u", some "Bearer old", false⟩, some 401⟩ "r" "acc"
    rfl rfl rfl (by decide) rfl

/-- Claim C3: when the refresh attempt for a 401 fails — the stored
refresh token is absent (or empty, which the code treats as absent) or
the refresh POST rejects — the interceptor removes both stored tokens,
deletes the default Authorization header, redirects the browser to
`/login`, and rejects with the refresh error. -/
theorem refresh_failure_clears_and_redirects (env : Option String)
    (post : String → String → Except String String)
    (st : ClientState) (err : AxiosError)
    (h401 : err.status = some 401) (hflag : err.config.retryFlag = false)
    (hfail : ∀ rt, st.refreshToken = some rt → rt ≠ "" →
      ∃ m, post (refreshEndpoint env) rt = Except.error m) :
    (responseErrorInterceptor env post st err).state =
      { st with token := none, refreshToken := none,
                defaultAuth := none, locationHref := some "/login" } ∧
    ∃ e, (responseErrorInterceptor env post st err).outcome =
          Outcome.rejectedRefresh e := by
  unfold responseErrorInterceptor
  simp only [h401, hflag, and_self, if_true]
  rcases hrt : st.refreshToken with _ | rt
  · exact ⟨rfl, RefreshErr.noRefreshToken, rfl⟩
  · by_cases he : rt = ""
    · simp only [he, beq_self_eq_true, if_true]
      exact ⟨rfl, RefreshErr.noRefreshToken, rfl⟩
    · obtain ⟨m, hm⟩ := hfail rt hrt he
      simp only [beq_iff_eq, he, if_false, hm]
      exact ⟨rfl, RefreshErr.postFailed m, rfl⟩

/-- Claim C3 (witness): a concrete 401 with no stored refresh token
clears the state, redirects to `/login` and rejects the refresh error. -/
theorem refresh_failure_clears_and_redirects_witness :
    (responseErrorInterceptor none (fun _ _ => Except.ok "acc")
      ⟨some "old", none, some "Bearer old", none⟩ ⟨⟨"/u", none, false⟩, some 401⟩).state =
      ⟨none, none, none, some "/login"⟩ ∧
    ∃ e, (responseErrorInterceptor none (fun _ _ => Except.ok "acc")
      ⟨some "old", none, some "Bearer old", none⟩ ⟨⟨"/u", none, false⟩, some 401⟩).outcome =
        Outcome.rejectedRefresh e :=
  refresh_failure_clears_and_redirects none (fun _ _ => Except.ok "acc")
    ⟨some "old", none, some "Bearer old", none⟩ ⟨⟨"/u", none, false⟩, some 401⟩
    rfl rfl (fun _ h _ => nomatch h)

/-- Claim C4 (counterexample): `addCalendarEvent` is not a direct
pass-through — on an event payload without a `property` field it
validates and throws `eventData.property is required`, performing no
HTTP call at all, instead of making exactly one call for every input. -/
theorem addCalendarEvent_missing_property_throws :
    addCalendarEvent ⟨none, [("start", "2025-01-01")]⟩ =
      Except.error "eventData.property is required" := by
  rfl

/-- Claim C4 (amended): the wrappers each perform exactly one HTTP call
with their argument values passed through, with two deviations the code
itself documents: `login` sends its email argument under the `username`
field, and `addCalendarEvent` first validates that `eventData.property`
is truthy, posting the unchanged payload to the property's calendar
route when it is and throwing without any HTTP call when it is not. -/
theorem wrappers_single_call (email password id timeRange : String)
    (ed : EventData) :
    login email password =
      { method := Method.post, url := "/token/",
        body := some { username := email, password := password } } ∧
    getThermostat id =
      { method := Method.get, url := "/thermostats/" ++ id ++ "/", body := none } ∧
    deleteProperty id =
      { method := Method.delete, url := "/properties/" ++ id ++ "/", body := none } ∧
    getStatistics timeRange =
      { method := Method.get, url := "/statistics/?period=" ++ timeRange, body := none } ∧
    (∀ p, ed.property = some p → p ≠ "" →
      addCalendarEvent ed = Except.ok
        { method := Method.post, url := "/properties/" ++ p ++ "/calendar/",
          body := some ed }) ∧
    (jsTruthy ed.property = false →
      addCalendarEvent ed = Except.error "eventData.property is required") := by
  refine ⟨rfl, rfl, rfl, rfl, ?_, ?_⟩
  · intro p hp hne
    simp [addCalendarEvent, jsTruthy, jsOr, hp, hne]
  · intro h
    simp [addCalendarEvent, h]

/-- Claim C4 (witness): concrete runs of each wrapper conjunct,
including both branches of `addCalendarEvent`. -/
theorem wrappers_single_call_witness :
    login "a@b.c" "pw" =
      { method := Method.post, url := "/token/",
        body := some { username := "a@b.c", password := "pw" } } ∧
    getThermostat "7" =
      { method := Method.get, url := "/thermostats/" ++ "7" ++ "/", body := none } ∧
    addCalendarEvent ⟨some "5", [("start", "2025-01-01")]⟩ = Except.ok
      { method := Method.post, url := "/properties/" ++ "5" ++ "/calendar/",
        body := some ⟨some "5", [("start", "2025-01-01")]⟩ } ∧
    addCalendarEvent ⟨some "", []⟩ = Except.error "eventData.property is required" :=
  ⟨(wrappers_single_call "a@b.c" "pw" "7" "month" ⟨some "5", [("start", "2025-01-01")]⟩).1,
   (wrappers_single_call "a@b.c" "pw" "7" "month" ⟨some "5", [("start", "2025-01-01")]⟩).2.1,
   (wrappers_single_call "a@b.c" "pw" "7" "month"
      ⟨some "5", [("start", "2025-01-01")]⟩).2.2.2.2.1 "5" rfl (by decide),
   (wrappers_single_call "a@b.c" "pw" "7" "month" ⟨some "", []⟩).2.2.2.2.2 rfl⟩

/-- Claim C7: VendorsPage catches failures of loading vendor accounts
and of creating a Cielo account, surfacing each as the inline error
message `err.message` (or the fixed fallback when the message is
absent or empty), rather than letting the exception propagate. -/
theorem vendors_errors_inline {Account : Type} (st : VendorsState Account)
    (e : JsError) (form : CieloForm)
    (refreshRes : Except JsError (List Account))
    (hkey : form.apiKey ≠ "") :
    (fetchAccounts st (Except.error e)).error =
      some (errMessageOr e "Failed to load vendor accounts") ∧
    (handleCieloCreate st form (Except.error e) refreshRes).1.error =
      some (errMessageOr e "Failed to create Cielo account") := by
  constructor
  · rfl
  · simp [handleCieloCreate, hkey]

/-- Claim C7 (witness): a concrete rejection with message `boom` is
rendered inline for both the load flow and the Cielo create flow. -/
theorem vendors_errors_inline_witness :
    (@fetchAccounts String ⟨[], [], [], none, true⟩
      (Except.error ⟨some "boom"⟩)).error =
      some (errMessageOr ⟨some "boom"⟩ "Failed to load vendor accounts") ∧
    (@handleCieloCreate String ⟨[], [], [], none, true⟩
      ⟨"key", "", ""⟩ (Except.error ⟨some "boom"⟩) (Except.ok [])).1.error =
      some (errMessageOr ⟨some "boom"⟩ "Failed to create Cielo account") :=
  vendors_errors_inline ⟨[], [], [], none, true⟩ ⟨some "boom"⟩
    ⟨"key", "", ""⟩ (Except.ok []) (by decide)

end SmartStat
